import Mathlib

/-!
# BPTF_SOCKET: the asynchronous WebSocket-over-TLS client session of `src/main.cpp`

The program is one class, `session`, whose member functions are completion
handlers chained through an `io_context`, plus `main`.  The embedding below
is a state-passing translation:

* the members of `session` that are plain data (`host_`, `buffer_`) are
  fields of the record `session`;
* the library objects `resolver_` and `ws_` are represented by what the
  source does to them: the operations in flight (`pending`), the deadline
  of the lowest layer (`deadline`), the server name stored in the TLS
  handle (`sni`);
* every externally visible call (output, timer calls, option calls,
  asynchronous operations) is appended, in program order, to `trace`;
* whatever the libraries decide (error messages, whether OpenSSL accepts a
  server name, whether trust-store set-up throws) is read from `Env`;
* the `io_context` is `complete` (one completion callback) and `ioc_run`
  (the event loop of `main`).
-/

namespace BptfSocket

/-! ## Data model -/

/-- Value of `beast::error_code`: an integer and the name of its category.
`if(ec)` is true exactly when the value is non-zero. -/
structure error_code where
  value : Int
  category : String
deriving DecidableEq

/-- Truth value of `if(ec)`. -/
def error_code.failed (ec : error_code) : Bool :=
  ec.value != 0

/-- Name of the category returned by `net::error::get_ssl_category()`. -/
def get_ssl_category : String := "asio.ssl"

/-- Conversion `static_cast<int>` of an `unsigned long` (32-bit `int`). -/
def static_cast_int (n : Nat) : Int :=
  if n % 2 ^ 32 < 2 ^ 31 then ((n % 2 ^ 32 : Nat) : Int) else ((n % 2 ^ 32 : Nat) : Int) - 2 ^ 32

/-- Endpoint `tcp::resolver::results_type::endpoint_type`: address and port. -/
structure endpoint where
  address : String
  port : Nat
deriving DecidableEq

/-- Buffers owned by a session; the class has the single member `buffer_`. -/
inductive Buffer where
  | buffer_
deriving DecidableEq

/-- Role argument of the TLS handshake (`ssl::stream_base::handshake_type`). -/
inductive handshake_type where
  | client
  | server
deriving DecidableEq

/-- Asynchronous operations the session starts, with their arguments.  The
completion handler bound to each one is fixed by the call site:
`async_resolve` is bound to `on_resolve`, `async_connect` to `on_connect`,
the TLS `async_handshake` to `on_ssl_handshake`, the WebSocket
`async_handshake` to `on_handshake` and `async_read` to `on_read`. -/
inductive Op where
  | async_resolve (host port : String)
  | async_connect (results : List endpoint)
  | ssl_async_handshake (role : handshake_type)
  | ws_async_handshake (host target : String)
  | async_read (buffer : Buffer)
deriving DecidableEq

/-- Stage an operation belongs to. -/
inductive Stage where
  | resolve
  | connect
  | ssl_handshake
  | handshake
  | read
deriving DecidableEq

/-- Stage of an operation. -/
def Op.stage : Op → Stage
  | .async_resolve _ _ => .resolve
  | .async_connect _ => .connect
  | .ssl_async_handshake _ => .ssl_handshake
  | .ws_async_handshake _ _ => .handshake
  | .async_read _ => .read

/-- Externally visible calls, recorded in program order. -/
inductive Effect where
  | issue (op : Op)
  | expires_after (seconds : Nat)
  | expires_never
  | SSL_set_tlsext_host_name (name : String) (accepted : Bool)
  | set_option_timeout_suggested (role : handshake_type)
  | set_option_decorator (user_agent : String)
  | cout (line : String)
  | fail (what message : String)
deriving DecidableEq

/-- Deadline of `beast::get_lowest_layer(ws_)` as left by the calls the
session has made on it: none so far, `expires_after`, or `expires_never`. -/
inductive Deadline where
  | unarmed
  | after (seconds : Nat)
  | never
deriving DecidableEq

/-- What a completed operation hands to its handler: the error code, the
resolver results, the connected endpoint, the bytes-transferred count, and
the payload the read stored in the buffer. -/
structure Outcome where
  ec : error_code
  results : List endpoint
  ep : endpoint
  bytes_transferred : Nat
  data : String
deriving DecidableEq

/-- State of one `session` object together with the library objects it owns. -/
structure session where
  host_ : String
  buffer_ : String
  sni : Option String
  deadline : Deadline
  pending : List Op
  completed : List (Op × Outcome)
  trace : List Effect
deriving DecidableEq

/-- Everything the surrounding libraries decide. -/
structure Env where
  message : error_code → String
  SSL_set_tlsext_host_name : String → Bool
  ERR_get_error : Nat
  BOOST_BEAST_VERSION_STRING : String
  set_verify_mode : Option String
  set_default_verify_paths : Option String
  enable_native_https_server_verification : Option String

/-! ## Observations on a state -/

/-- Line written to `std::cout` by an effect, if any. -/
def Effect.cout_line : Effect → Option String
  | .cout line => some line
  | _ => none

/-- Line written to `std::cerr` by an effect, if any: `fail` writes
`what << ": " << ec.message() << "\n"`. -/
def Effect.cerr_line : Effect → Option String
  | .fail what message => some (what ++ ": " ++ message)
  | _ => none

/-- Label passed to `fail` by an effect, if it is a failure report. -/
def Effect.fail_label : Effect → Option String
  | .fail what _ => some what
  | _ => none

/-- Operation started by an effect, if any. -/
def Effect.issued_op : Effect → Option Op
  | .issue op => some op
  | _ => none

/-- Lines on standard output, oldest first. -/
def session.stdout (s : session) : List String :=
  s.trace.filterMap Effect.cout_line

/-- Lines on the error channel, oldest first. -/
def session.stderr (s : session) : List String :=
  s.trace.filterMap Effect.cerr_line

/-- Labels of the failure reports, oldest first. -/
def session.labels (s : session) : List String :=
  s.trace.filterMap Effect.fail_label

/-- Operations started so far, oldest first. -/
def session.issued (s : session) : List Op :=
  s.trace.filterMap Effect.issued_op

/-! ## The program -/

/-- Function `fail(ec, what)`: one line `what: message` on `std::cerr`. -/
def fail (env : Env) (ec : error_code) (what : String) (s : session) : session :=
  { s with trace := s.trace ++ [Effect.fail what (env.message ec)] }

/-- Start of an asynchronous operation: it is in flight from now on. -/
def issue (op : Op) (s : session) : session :=
  { s with pending := s.pending ++ [op], trace := s.trace ++ [Effect.issue op] }

/-- Call `beast::get_lowest_layer(ws_).expires_after(std::chrono::seconds(n))`. -/
def expires_after (n : Nat) (s : session) : session :=
  { s with deadline := Deadline.after n, trace := s.trace ++ [Effect.expires_after n] }

/-- Call `beast::get_lowest_layer(ws_).expires_never()`. -/
def expires_never (s : session) : session :=
  { s with deadline := Deadline.never, trace := s.trace ++ [Effect.expires_never] }

/-- Write of one line to `std::cout`, ended by `std::endl`. -/
def cout (line : String) (s : session) : session :=
  { s with trace := s.trace ++ [Effect.cout line] }

/-- Constructor `session(ioc, ctx)`: nothing started, nothing written. -/
def session.init : session :=
  { host_ := "", buffer_ := "", sni := none, deadline := Deadline.unarmed,
    pending := [], completed := [], trace := [] }

/-- Member `session::run(host, port)`. -/
def run (host port : String) (s : session) : session :=
  issue (Op.async_resolve host port) { s with host_ := host }

/-- Member `session::on_resolve(ec, results)`. -/
def on_resolve (env : Env) (ec : error_code) (results : List endpoint) (s : session) : session :=
  if ec.failed then fail env ec "resolve" s
  else issue (Op.async_connect results) (expires_after 30 s)

/-- Member `session::on_connect(ec, ep)`. -/
def on_connect (env : Env) (ec : error_code) (ep : endpoint) (s : session) : session :=
  if ec.failed then fail env ec "connect" s
  else
    let s1 := expires_after 30 s
    if !(env.SSL_set_tlsext_host_name s1.host_) then
      let s2 := { s1 with trace := s1.trace ++ [Effect.SSL_set_tlsext_host_name s1.host_ false] }
      let ec2 : error_code := { value := static_cast_int env.ERR_get_error, category := get_ssl_category }
      fail env ec2 "connect" s2
    else
      let s2 := { s1 with sni := some s1.host_,
                          trace := s1.trace ++ [Effect.SSL_set_tlsext_host_name s1.host_ true] }
      let s3 := { s2 with host_ := s2.host_ ++ (":" ++ toString ep.port) }
      issue (Op.ssl_async_handshake handshake_type.client) s3

/-- Member `session::on_ssl_handshake(ec)`. -/
def on_ssl_handshake (env : Env) (ec : error_code) (s : session) : session :=
  if ec.failed then fail env ec "ssl_handshake" s
  else
    let s1 := expires_never s
    let s2 := { s1 with trace := s1.trace ++ [Effect.set_option_timeout_suggested handshake_type.client] }
    let s3 := { s2 with trace := s2.trace ++ [Effect.set_option_decorator
                  (env.BOOST_BEAST_VERSION_STRING ++ " websocket-client-async-ssl C++ forever <3")] }
    issue (Op.ws_async_handshake s3.host_ "/events") s3

/-- Member `session::on_handshake(ec)`. -/
def on_handshake (env : Env) (ec : error_code) (s : session) : session :=
  if ec.failed then fail env ec "handshake" s
  else issue (Op.async_read Buffer.buffer_) s

/-- Member `session::on_write(ec, bytes_transferred)`; no operation is bound to it. -/
def on_write (env : Env) (ec : error_code) (_bytes_transferred : Nat) (s : session) : session :=
  if ec.failed then fail env ec "write" s
  else s

/-- Member `session::on_read(ec, bytes_transferred)`. -/
def on_read (env : Env) (ec : error_code) (bytes_transferred : Nat) (s : session) : session :=
  let s1 := cout (toString bytes_transferred ++ " bytes recieved") s
  if ec.failed then fail env ec "read" s1
  else issue (Op.async_read Buffer.buffer_) s1

/-- Member `session::on_close(ec)`; no operation is bound to it. -/
def on_close (env : Env) (ec : error_code) (s : session) : session :=
  let s1 := cout s.buffer_ s
  if ec.failed then fail env ec "close" s1
  else cout s1.buffer_ s1

/-! ## The event loop -/

/-- Call of the handler bound to `op` with the outcome `o`.  A read has
stored its payload in `buffer_` before its handler runs. -/
def invoke (env : Env) (op : Op) (o : Outcome) (s : session) : session :=
  match op with
  | .async_resolve _ _ => on_resolve env o.ec o.results s
  | .async_connect _ => on_connect env o.ec o.ep s
  | .ssl_async_handshake _ => on_ssl_handshake env o.ec s
  | .ws_async_handshake _ _ => on_handshake env o.ec s
  | .async_read _ => on_read env o.ec o.bytes_transferred { s with buffer_ := s.buffer_ ++ o.data }

/-- One completion callback: the in-flight operation at position `i`
completes with outcome `o`; it is no longer in flight when its handler
runs.  There is no callback (`none`) when nothing is in flight at `i`. -/
def complete (env : Env) (i : Nat) (o : Outcome) (s : session) : Option session :=
  match s.pending.get? i with
  | none => none
  | some op =>
    some (invoke env op o
      { s with pending := s.pending.eraseIdx i, completed := s.completed ++ [(op, o)] })

/-- Any sequence of completion callbacks, from state `s`. -/
def callbacks (env : Env) : List (Nat × Outcome) → session → Option session
  | [], s => some s
  | (i, o) :: rest, s =>
    match complete env i o s with
    | none => none
    | some s1 => callbacks env rest s1

/-- State of a freshly constructed session after one call of `run` followed
by the given completion callbacks. -/
def started (env : Env) (host port : String) (script : List (Nat × Outcome)) : Option session :=
  callbacks env script (run host port session.init)

/-- Call `ioc.run()`: completions are dispatched, oldest operation first,
with the outcomes the environment supplies; the call returns when nothing
is in flight.  The result is `none` while the supplied outcomes are used up
and an operation is still in flight: the loop has not returned. -/
def ioc_run (env : Env) : List Outcome → session → Option session
  | [], s => if s.pending.isEmpty then some s else none
  | o :: rest, s =>
    match complete env 0 o s with
    | none => some s
    | some s1 => ioc_run env rest s1

/-- Modelled from the spec: the macro `EXIT_SUCCESS` of `<cstdlib>` is not
part of the repository; the spec gives success as 0. -/
def EXIT_SUCCESS : Int := 0

/-- Modelled from the spec: the macro `EXIT_FAILURE` of `<cstdlib>` is not
part of the repository; the spec calls it a non-zero failure code, and the
usual value 1 is taken. -/
def EXIT_FAILURE : Int := 1

/-- What `main` leaves behind: its return value, the lines it wrote itself
to `std::cerr`, and the session it launched (if any) as the event loop left it. -/
structure Process where
  exit_code : Int
  cerr : List String
  launched : Option session
deriving DecidableEq

/-- The `try` block of `main`: the message of the first exception thrown by
the three trust-store calls, if one is thrown. -/
def trust_store_init (env : Env) : Option String :=
  match env.set_verify_mode with
  | some e => some e
  | none =>
    match env.set_default_verify_paths with
    | some e => some e
    | none => env.enable_native_https_server_verification

/-- Function `main`; `none` when `ioc.run()` has not returned within the
supplied outcomes. -/
def main (env : Env) (script : List Outcome) : Option Process :=
  let host := "ws.backpack.tf"
  let port := "443"
  match trust_store_init env with
  | some e => some { exit_code := EXIT_FAILURE, cerr := ["Error: " ++ e], launched := none }
  | none =>
    match ioc_run env script (run host port session.init) with
    | none => none
    | some s => some { exit_code := EXIT_SUCCESS, cerr := [], launched := some s }

/-! ## Stage order and invariants -/

/-- Stage whose operation a handler starts on success. -/
def Stage.next : Stage → Stage
  | .resolve => .connect
  | .connect => .ssl_handshake
  | .ssl_handshake => .handshake
  | .handshake => .read
  | .read => .read

/-- Stage of the operation started in position `n` (counted from 0). -/
def stage_at : Nat → Stage
  | 0 => .resolve
  | 1 => .connect
  | 2 => .ssl_handshake
  | 3 => .handshake
  | _ => .read

/-- Deadline in force while the operation of a stage is the latest one started. -/
def deadline_for : Stage → Deadline
  | .resolve => .unarmed
  | .connect => .after 30
  | .ssl_handshake => .after 30
  | .handshake => .never
  | .read => .never

/-- Invariant kept by every completion callback of a session started once:
`n + 1` operations have been started, in stage order; the deadline is the one
of the latest stage; every started operation but the one in flight has
completed; at most one is in flight; only the last completion can carry an
error; the first operation started is `first`. -/
def Inv (first : Op) (s : session) : Prop :=
  ∃ n, s.issued.map Op.stage = (List.range (n + 1)).map stage_at ∧
    s.deadline = deadline_for (stage_at n) ∧
    s.issued = s.completed.map Prod.fst ++ s.pending ∧
    (s.pending = [] ∨ ∃ op, s.pending = [op] ∧ op.stage = stage_at n) ∧
    (s.pending ≠ [] → ∀ p ∈ s.completed, p.2.ec.failed = false) ∧
    (s.completed.filter (fun p => p.2.ec.failed)).length ≤ 1 ∧
    s.issued.head? = some first

/-- Completions of read operations among the completed operations. -/
def is_read (p : Op × Outcome) : Bool :=
  decide (p.1.stage = Stage.read)

/-- Standard output holds exactly one report per completed read, in order. -/
def Reported (s : session) : Prop :=
  s.stdout = (s.completed.filter is_read).map
    (fun p => toString p.2.bytes_transferred ++ " bytes recieved")

/-! ## Example inputs -/

/-- Concrete environment used in the examples: the message of an error code
is its category name, a colon and its value, OpenSSL accepts every non-empty
server name, the pending OpenSSL error is 1, and the trust-store set-up does
not throw. -/
def sample_env : Env :=
  { message := fun ec => ec.category ++ ":" ++ toString ec.value,
    SSL_set_tlsext_host_name := fun name => !name.isEmpty,
    ERR_get_error := 1,
    BOOST_BEAST_VERSION_STRING := "Boost.Beast/300",
    set_verify_mode := none,
    set_default_verify_paths := none,
    enable_native_https_server_verification := none }

/-- Environment of the examples in which OpenSSL rejects every server name. -/
def rejecting_env : Env :=
  { sample_env with SSL_set_tlsext_host_name := fun _ => false }

/-- Environment of the examples in which loading the default verify paths throws. -/
def throwing_env : Env :=
  { sample_env with set_default_verify_paths := some "set_default_verify_paths: no such file" }

/-- Outcome without an error, for an endpoint on port 443 and a read of `n` bytes. -/
def Outcome.ok (n : Nat) : Outcome :=
  { ec := { value := 0, category := "system" },
    results := [{ address := "192.0.2.1", port := 443 }],
    ep := { address := "192.0.2.1", port := 443 },
    bytes_transferred := n,
    data := "" }

/-- Outcome with the error code `v` of the system category and `n` bytes. -/
def Outcome.error (v : Int) (n : Nat) : Outcome :=
  { ec := { value := v, category := "system" },
    results := [],
    ep := { address := "", port := 0 },
    bytes_transferred := n,
    data := "" }

/-- Completion script of the examples: resolve, connect, TLS handshake and
upgrade handshake succeed, a read delivers 128 bytes, and the next read ends
with an error and 0 bytes (the peer closed). -/
def sample_script : List (Nat × Outcome) :=
  [(0, Outcome.ok 0), (0, Outcome.ok 0), (0, Outcome.ok 0), (0, Outcome.ok 0),
   (0, Outcome.ok 128), (0, Outcome.error 2 0)]

/-- State the example session is in after `sample_script`. -/
def sample_state : session :=
  (started sample_env "example.test" "443" sample_script).getD session.init

/-- State of the example session once the resolve has succeeded. -/
def sample_connecting : session :=
  (started sample_env "example.test" "443" [(0, Outcome.ok 0)]).getD session.init

/-- State of the example session after four successful stages and one
successful read of 128 bytes: the second read is in flight. -/
def sample_streaming : session :=
  (started sample_env "example.test" "443" (sample_script.take 5)).getD session.init

/-! ## Equations of the handlers -/

theorem on_resolve_failed (env : Env) (ec : error_code) (results : List endpoint) (s : session)
    (h : ec.failed = true) : on_resolve env ec results s = fail env ec "resolve" s := by
  simp [on_resolve, h]

theorem on_resolve_ok (env : Env) (ec : error_code) (results : List endpoint) (s : session)
    (h : ec.failed = false) :
    on_resolve env ec results s =
      { s with deadline := Deadline.after 30,
               pending := s.pending ++ [Op.async_connect results],
               trace := s.trace ++ [Effect.expires_after 30, Effect.issue (Op.async_connect results)] } := by
  simp [on_resolve, h, issue, expires_after]

theorem on_connect_failed (env : Env) (ec : error_code) (ep : endpoint) (s : session)
    (h : ec.failed = true) : on_connect env ec ep s = fail env ec "connect" s := by
  simp [on_connect, h]

theorem on_connect_sni_rejected (env : Env) (ec : error_code) (ep : endpoint) (s : session)
    (h : ec.failed = false) (hs : env.SSL_set_tlsext_host_name s.host_ = false) :
    on_connect env ec ep s =
      fail env { value := static_cast_int env.ERR_get_error, category := get_ssl_category } "connect"
        { s with deadline := Deadline.after 30,
                 trace := s.trace ++ [Effect.expires_after 30,
                                      Effect.SSL_set_tlsext_host_name s.host_ false] } := by
  simp [on_connect, h, hs, expires_after]

theorem on_connect_ok (env : Env) (ec : error_code) (ep : endpoint) (s : session)
    (h : ec.failed = false) (hs : env.SSL_set_tlsext_host_name s.host_ = true) :
    on_connect env ec ep s =
      { s with host_ := s.host_ ++ (":" ++ toString ep.port),
               sni := some s.host_,
               deadline := Deadline.after 30,
               pending := s.pending ++ [Op.ssl_async_handshake handshake_type.client],
               trace := s.trace ++ [Effect.expires_after 30,
                                    Effect.SSL_set_tlsext_host_name s.host_ true,
                                    Effect.issue (Op.ssl_async_handshake handshake_type.client)] } := by
  simp [on_connect, h, hs, expires_after, issue]

theorem on_ssl_handshake_failed (env : Env) (ec : error_code) (s : session)
    (h : ec.failed = true) : on_ssl_handshake env ec s = fail env ec "ssl_handshake" s := by
  simp [on_ssl_handshake, h]

theorem on_ssl_handshake_ok (env : Env) (ec : error_code) (s : session)
    (h : ec.failed = false) :
    on_ssl_handshake env ec s =
      { s with deadline := Deadline.never,
               pending := s.pending ++ [Op.ws_async_handshake s.host_ "/events"],
               trace := s.trace ++ [Effect.expires_never,
                                    Effect.set_option_timeout_suggested handshake_type.client,
                                    Effect.set_option_decorator
                                      (env.BOOST_BEAST_VERSION_STRING ++
                                        " websocket-client-async-ssl C++ forever <3"),
                                    Effect.issue (Op.ws_async_handshake s.host_ "/events")] } := by
  simp [on_ssl_handshake, h, expires_never, issue]

theorem on_handshake_failed (env : Env) (ec : error_code) (s : session)
    (h : ec.failed = true) : on_handshake env ec s = fail env ec "handshake" s := by
  simp [on_handshake, h]

theorem on_handshake_ok (env : Env) (ec : error_code) (s : session)
    (h : ec.failed = false) :
    on_handshake env ec s =
      { s with pending := s.pending ++ [Op.async_read Buffer.buffer_],
               trace := s.trace ++ [Effect.issue (Op.async_read Buffer.buffer_)] } := by
  simp [on_handshake, h, issue]

theorem on_read_failed (env : Env) (ec : error_code) (n : Nat) (s : session)
    (h : ec.failed = true) :
    on_read env ec n s =
      { s with trace := s.trace ++ [Effect.cout (toString n ++ " bytes recieved"),
                                    Effect.fail "read" (env.message ec)] } := by
  simp [on_read, h, cout, fail]

theorem on_read_ok (env : Env) (ec : error_code) (n : Nat) (s : session)
    (h : ec.failed = false) :
    on_read env ec n s =
      { s with pending := s.pending ++ [Op.async_read Buffer.buffer_],
               trace := s.trace ++ [Effect.cout (toString n ++ " bytes recieved"),
                                    Effect.issue (Op.async_read Buffer.buffer_)] } := by
  simp [on_read, h, cout, issue]

/-! ## One completion callback -/

theorem stage_at_succ (n : Nat) : stage_at (n + 1) = (stage_at n).next := by
  match n with
  | 0 => rfl
  | 1 => rfl
  | 2 => rfl
  | 3 => rfl
  | _ + 4 => rfl

theorem complete_single (env : Env) (i : Nat) (o : Outcome) (s s1 : session) (op : Op)
    (hp : s.pending = [op]) (h : complete env i o s = some s1) :
    i = 0 ∧ s1 = invoke env op o { s with pending := [], completed := s.completed ++ [(op, o)] } := by
  unfold complete at h
  rw [hp] at h
  cases i with
  | zero =>
    simp at h
    exact ⟨rfl, h.symm⟩
  | succ j => simp at h

theorem complete_nothing_pending (env : Env) (i : Nat) (o : Outcome) (s : session)
    (hp : s.pending = []) : complete env i o s = none := by
  simp [complete, hp]

/-- Effect of a handler called when nothing else is in flight: either it
starts nothing, or it starts exactly one operation, of the next stage, and
then its error code was clear. -/
theorem invoke_spec (env : Env) (op : Op) (o : Outcome) (s : session)
    (hp : s.pending = []) (hd : s.deadline = deadline_for op.stage) :
    (invoke env op o s).completed = s.completed ∧
    (((invoke env op o s).pending = [] ∧ (invoke env op o s).issued = s.issued ∧
        (invoke env op o s).deadline = deadline_for op.stage) ∨
      (∃ op1, (invoke env op o s).pending = [op1] ∧
        (invoke env op o s).issued = s.issued ++ [op1] ∧
        op1.stage = op.stage.next ∧
        (invoke env op o s).deadline = deadline_for op1.stage ∧
        o.ec.failed = false)) := by
  cases hf : o.ec.failed
  · cases op with
    | async_resolve a b =>
      simp [invoke, on_resolve_ok _ _ _ _ hf, hp, session.issued, Effect.issued_op, Op.stage,
        Stage.next, deadline_for]
    | async_connect r =>
      cases hs : env.SSL_set_tlsext_host_name s.host_
      · simp [invoke, on_connect_sni_rejected _ _ _ _ hf hs, fail, hp, session.issued,
          Effect.issued_op, Op.stage, Stage.next, deadline_for]
      · simp [invoke, on_connect_ok _ _ _ _ hf hs, hp, session.issued, Effect.issued_op,
          Op.stage, Stage.next, deadline_for]
    | ssl_async_handshake r =>
      simp [invoke, on_ssl_handshake_ok _ _ _ hf, hp, session.issued, Effect.issued_op, Op.stage,
        Stage.next, deadline_for]
    | ws_async_handshake a b =>
      simp [invoke, on_handshake_ok _ _ _ hf, hp, session.issued, Effect.issued_op, Op.stage,
        Stage.next, deadline_for] at hd ⊢
      exact hd
    | async_read b =>
      simp [invoke, on_read_ok _ _ _ _ hf, hp, session.issued, Effect.issued_op, Op.stage,
        Stage.next, deadline_for] at hd ⊢
      exact hd
  · cases op with
    | async_resolve a b =>
      simp [invoke, on_resolve_failed _ _ _ _ hf, fail, hp, hd, session.issued, Effect.issued_op]
    | async_connect r =>
      simp [invoke, on_connect_failed _ _ _ _ hf, fail, hp, hd, session.issued, Effect.issued_op]
    | ssl_async_handshake r =>
      simp [invoke, on_ssl_handshake_failed _ _ _ hf, fail, hp, hd, session.issued,
        Effect.issued_op]
    | ws_async_handshake a b =>
      simp [invoke, on_handshake_failed _ _ _ hf, fail, hp, hd, session.issued, Effect.issued_op]
    | async_read b =>
      simp [invoke, on_read_failed _ _ _ _ hf, hp, hd, session.issued, Effect.issued_op]

/-! ## Invariant of a session started once -/

theorem Inv_run (host port : String) :
    Inv (Op.async_resolve host port) (run host port session.init) := by
  refine ⟨0, ?_, ?_, ?_, ?_, ?_, ?_, ?_⟩ <;>
    simp [run, issue, session.init, session.issued, Effect.issued_op, Op.stage, stage_at,
      deadline_for, List.range_succ]

theorem Inv_complete (env : Env) (first : Op) (i : Nat) (o : Outcome) (s s1 : session)
    (hinv : Inv first s) (h : complete env i o s = some s1) : Inv first s1 := by
  obtain ⟨n, h1, h2, h3, h4, h5, h6, h7⟩ := hinv
  rcases h4 with hp | ⟨op, hp, hst⟩
  · rw [complete_nothing_pending env i o s hp] at h
    exact absurd h (by simp)
  · obtain ⟨-, rfl⟩ := complete_single env i o s s1 op hp h
    have hok : ∀ p ∈ s.completed, p.2.ec.failed = false := h5 (by simp [hp])
    have hnil : s.completed.filter (fun p => p.2.ec.failed) = [] := by
      rw [List.filter_eq_nil_iff]
      intro p hp1
      simp [hok p hp1]
    obtain ⟨hc, hcase⟩ := invoke_spec env op o
      { s with pending := [], completed := s.completed ++ [(op, o)] } rfl
      (by simpa [hst] using h2)
    have hiss : ({ s with pending := [], completed := s.completed ++ [(op, o)] } : session).issued
        = s.issued := rfl
    rw [hiss] at hcase
    simp only [] at hc
    rcases hcase with ⟨hp1, hi1, hd1⟩ | ⟨op1, hp1, hi1, hs1, hd1, hf1⟩
    · refine ⟨n, ?_, ?_, ?_, Or.inl hp1, ?_, ?_, by rw [hi1]; exact h7⟩
      · rw [hi1, h1]
      · rw [hd1, hst]
      · rw [hi1, hc, hp1, h3, hp]
        simp
      · intro hne
        exact absurd hp1 hne
      · rw [hc, List.filter_append, hnil]
        by_cases hf : o.ec.failed = true <;> simp [List.filter_cons, hf]
    · refine ⟨n + 1, ?_, ?_, ?_, Or.inr ⟨op1, hp1, ?_⟩, ?_, ?_, ?_⟩
      · rw [hi1, List.map_append, h1, List.range_succ (n + 1), List.map_append]
        simp [hs1, hst, stage_at_succ]
      · rw [hd1, hs1, hst, stage_at_succ]
      · rw [hi1, hc, hp1, h3, hp]
        simp
      · rw [hs1, hst, stage_at_succ]
      · intro _ p hp2
        rw [hc] at hp2
        rcases List.mem_append.mp hp2 with hp3 | hp3
        · exact hok p hp3
        · simp at hp3
          rw [hp3]
          exact hf1
      · rw [hc, List.filter_append, hnil]
        simp [List.filter_cons, hf1]
      · rw [hi1]
        cases hl : s.issued with
        | nil => simp [hl] at h7
        | cons a rest =>
          rw [hl] at h7
          simpa using h7

theorem callbacks_preserves (env : Env) (P : session → Prop)
    (hstep : ∀ i o s s1, P s → complete env i o s = some s1 → P s1)
    (script : List (Nat × Outcome)) :
    ∀ s s1 : session, P s → callbacks env script s = some s1 → P s1 := by
  induction script with
  | nil =>
    intro s s1 hP h
    simp [callbacks] at h
    rw [← h]
    exact hP
  | cons e rest ih =>
    intro s s1 hP h
    obtain ⟨i, o⟩ := e
    simp only [callbacks] at h
    cases hc : complete env i o s with
    | none => simp [hc] at h
    | some s2 =>
      rw [hc] at h
      exact ih s2 s1 (hstep i o s s2 hP hc) h

theorem Inv_started (env : Env) (host port : String) (script : List (Nat × Outcome))
    (s : session) (h : started env host port script = some s) :
    Inv (Op.async_resolve host port) s :=
  callbacks_preserves env (Inv (Op.async_resolve host port))
    (Inv_complete env (Op.async_resolve host port)) script _ s (Inv_run host port) h

/-! ## The read loop -/

theorem complete_read_ok (env : Env) (o : Outcome) (s : session) (b : Buffer)
    (hp : s.pending = [Op.async_read b]) (ho : o.ec.failed = false) :
    ∃ s1, complete env 0 o s = some s1 ∧
      s1.stdout = s.stdout ++ [toString o.bytes_transferred ++ " bytes recieved"] ∧
      s1.stderr = s.stderr ∧
      s1.issued = s.issued ++ [Op.async_read Buffer.buffer_] ∧
      s1.pending = [Op.async_read Buffer.buffer_] := by
  refine ⟨invoke env (Op.async_read b) o
    { s with pending := [], completed := s.completed ++ [(Op.async_read b, o)] },
    by simp [complete, hp], ?_, ?_, ?_, ?_⟩ <;>
    simp [invoke, on_read_ok _ _ _ _ ho, session.stdout, session.stderr, session.issued,
      Effect.cout_line, Effect.cerr_line, Effect.issued_op]

theorem reads_ok (env : Env) (os : List Outcome) :
    ∀ s : session, s.pending = [Op.async_read Buffer.buffer_] →
      (∀ o ∈ os, o.ec.failed = false) →
      ∃ s1, callbacks env (os.map (fun o => (0, o))) s = some s1 ∧
        s1.stdout = s.stdout ++ os.map (fun o => toString o.bytes_transferred ++ " bytes recieved") ∧
        s1.stderr = s.stderr ∧
        s1.issued = s.issued ++ List.replicate os.length (Op.async_read Buffer.buffer_) ∧
        s1.pending = [Op.async_read Buffer.buffer_] := by
  induction os with
  | nil =>
    intro s hp _
    exact ⟨s, by simp [callbacks], by simp, rfl, by simp, hp⟩
  | cons o rest ih =>
    intro s hp hos
    obtain ⟨s1, hc, h1, h2, h3, h4⟩ :=
      complete_read_ok env o s Buffer.buffer_ hp (hos o (List.mem_cons_self _ _))
    obtain ⟨s2, hc2, k1, k2, k3, k4⟩ :=
      ih s1 h4 (fun o1 ho1 => hos o1 (List.mem_cons_of_mem _ ho1))
    refine ⟨s2, ?_, ?_, ?_, ?_, k4⟩
    · simp only [List.map_cons, callbacks, hc]
      exact hc2
    · rw [k1, h1]
      simp
    · rw [k2, h2]
    · rw [k3, h3]
      simp [List.replicate_succ]

/-! ## Reports and read completions -/

theorem invoke_stdout (env : Env) (op : Op) (o : Outcome) (s : session) :
    (invoke env op o s).stdout =
        s.stdout ++ (if op.stage = Stage.read then [toString o.bytes_transferred ++ " bytes recieved"]
          else []) ∧
      (invoke env op o s).completed = s.completed := by
  cases hf : o.ec.failed
  · cases op with
    | async_resolve a b =>
      simp [invoke, on_resolve_ok _ _ _ _ hf, session.stdout, Effect.cout_line, Op.stage]
    | async_connect r =>
      cases hs : env.SSL_set_tlsext_host_name s.host_
      · simp [invoke, on_connect_sni_rejected _ _ _ _ hf hs, fail, session.stdout,
          Effect.cout_line, Op.stage]
      · simp [invoke, on_connect_ok _ _ _ _ hf hs, session.stdout, Effect.cout_line, Op.stage]
    | ssl_async_handshake r =>
      simp [invoke, on_ssl_handshake_ok _ _ _ hf, session.stdout, Effect.cout_line, Op.stage]
    | ws_async_handshake a b =>
      simp [invoke, on_handshake_ok _ _ _ hf, session.stdout, Effect.cout_line, Op.stage]
    | async_read b =>
      simp [invoke, on_read_ok _ _ _ _ hf, session.stdout, Effect.cout_line, Op.stage]
  · cases op with
    | async_resolve a b =>
      simp [invoke, on_resolve_failed _ _ _ _ hf, fail, session.stdout, Effect.cout_line, Op.stage]
    | async_connect r =>
      simp [invoke, on_connect_failed _ _ _ _ hf, fail, session.stdout, Effect.cout_line, Op.stage]
    | ssl_async_handshake r =>
      simp [invoke, on_ssl_handshake_failed _ _ _ hf, fail, session.stdout, Effect.cout_line,
        Op.stage]
    | ws_async_handshake a b =>
      simp [invoke, on_handshake_failed _ _ _ hf, fail, session.stdout, Effect.cout_line, Op.stage]
    | async_read b =>
      simp [invoke, on_read_failed _ _ _ _ hf, session.stdout, Effect.cout_line, Op.stage]

theorem Reported_complete (env : Env) (i : Nat) (o : Outcome) (s s1 : session)
    (hr : Reported s) (h : complete env i o s = some s1) : Reported s1 := by
  unfold complete at h
  split at h
  · exact absurd h (by simp)
  · rename_i op _
    simp only [Option.some.injEq] at h
    obtain ⟨h1, h2⟩ := invoke_stdout env op o
      { s with pending := s.pending.eraseIdx i, completed := s.completed ++ [(op, o)] }
    rw [h] at h1 h2
    unfold Reported at hr ⊢
    rw [h1, h2]
    have hs : session.stdout
        { s with pending := s.pending.eraseIdx i, completed := s.completed ++ [(op, o)] }
        = s.stdout := rfl
    rw [hs, hr]
    by_cases hst : op.stage = Stage.read <;>
      simp [List.filter_append, List.filter_cons, is_read, hst]

theorem Reported_started (env : Env) (host port : String) (script : List (Nat × Outcome))
    (s : session) (h : started env host port script = some s) : Reported s :=
  callbacks_preserves env Reported (Reported_complete env) script _ s
    (by simp [Reported, run, issue, session.init, session.stdout, Effect.cout_line]) h

theorem countP_split {α : Type} (p q : α → Bool) (l : List α) :
    l.countP p = l.countP (fun a => p a && !q a) + l.countP (fun a => p a && q a) := by
  induction l with
  | nil => simp
  | cons a rest ih =>
    simp only [List.countP_cons, ih]
    cases p a <;> cases q a <;> simp <;> omega

/-! ## Successful reads -/

/-- C1: a read completion without an error makes `on_read` write exactly one
line to standard output, the decimal byte count followed by " bytes recieved",
write nothing to the error channel, and start exactly one further read on
`buffer_`; hence, from a state in which the upgrade handshake is the operation
in flight, a successful handshake followed by k successful reads yields exactly
the k reports of the delivered counts, in order, with a (k+1)-th read in flight. -/
theorem on_read_success_reports_and_rearms (env : Env)
    (s : session) (ec : error_code) (n : Nat) (hec : ec.failed = false)
    (t : session) (host target : String) (o0 : Outcome) (os : List Outcome)
    (ht : t.pending = [Op.ws_async_handshake host target])
    (h0 : o0.ec.failed = false) (hos : ∀ o ∈ os, o.ec.failed = false) :
    ((on_read env ec n s).trace = s.trace ++
        [Effect.cout (toString n ++ " bytes recieved"), Effect.issue (Op.async_read Buffer.buffer_)] ∧
      (on_read env ec n s).stdout = s.stdout ++ [toString n ++ " bytes recieved"] ∧
      (on_read env ec n s).stderr = s.stderr ∧
      (on_read env ec n s).issued = s.issued ++ [Op.async_read Buffer.buffer_] ∧
      (on_read env ec n s).pending = s.pending ++ [Op.async_read Buffer.buffer_]) ∧
    ∃ t1, callbacks env ((0, o0) :: os.map (fun o => (0, o))) t = some t1 ∧
      t1.stdout = t.stdout ++ os.map (fun o => toString o.bytes_transferred ++ " bytes recieved") ∧
      t1.stderr = t.stderr ∧
      t1.issued = t.issued ++ List.replicate (os.length + 1) (Op.async_read Buffer.buffer_) ∧
      t1.pending = [Op.async_read Buffer.buffer_] := by
  constructor
  · simp [on_read_ok _ _ _ _ hec, session.stdout, session.stderr, session.issued,
      Effect.cout_line, Effect.cerr_line, Effect.issued_op]
  · have hc : complete env 0 o0 t = some (on_handshake env o0.ec
        { t with pending := [], completed := t.completed ++ [(Op.ws_async_handshake host target, o0)] }) := by
      simp [complete, ht, invoke]
    have hpend : (on_handshake env o0.ec
        { t with pending := [], completed := t.completed ++ [(Op.ws_async_handshake host target, o0)] }).pending
        = [Op.async_read Buffer.buffer_] := by
      simp [on_handshake_ok _ _ _ h0]
    obtain ⟨t1, hr, k1, k2, k3, k4⟩ := reads_ok env os _ hpend hos
    refine ⟨t1, ?_, ?_, ?_, ?_, k4⟩
    · simp only [callbacks, hc]
      exact hr
    · rw [k1]
      simp [on_handshake_ok _ _ _ h0, session.stdout, Effect.cout_line]
    · rw [k2]
      simp [on_handshake_ok _ _ _ h0, session.stderr, Effect.cerr_line]
    · rw [k3]
      simp [on_handshake_ok _ _ _ h0, session.issued, Effect.issued_op, List.replicate_succ]

theorem on_read_success_reports_and_rearms_witness :
    (Outcome.ok 0).ec.failed = false ∧
    (∀ o ∈ [Outcome.ok 128, Outcome.ok 5], o.ec.failed = false) ∧
    (on_read sample_env (Outcome.ok 128).ec 128 session.init).stdout = ["128 bytes recieved"] ∧
    (on_read sample_env (Outcome.ok 128).ec 128 session.init).stderr = [] ∧
    (on_read sample_env (Outcome.ok 128).ec 128 session.init).pending = [Op.async_read Buffer.buffer_] ∧
    ∃ t1, callbacks sample_env [(0, Outcome.ok 0), (0, Outcome.ok 128), (0, Outcome.ok 5)]
        { session.init with pending := [Op.ws_async_handshake "ws.backpack.tf:443" "/events"] } = some t1 ∧
      t1.stdout = ["128 bytes recieved", "5 bytes recieved"] ∧
      t1.stderr = [] ∧
      t1.issued = [Op.async_read Buffer.buffer_, Op.async_read Buffer.buffer_, Op.async_read Buffer.buffer_] ∧
      t1.pending = [Op.async_read Buffer.buffer_] :=
  have h := on_read_success_reports_and_rearms sample_env session.init (Outcome.ok 128).ec 128 rfl
    { session.init with pending := [Op.ws_async_handshake "ws.backpack.tf:443" "/events"] }
    "ws.backpack.tf:443" "/events" (Outcome.ok 0) [Outcome.ok 128, Outcome.ok 5] rfl rfl (by decide)
  ⟨rfl, by decide, h.1.2.1, h.1.2.2.1, h.1.2.2.2.2, h.2⟩

/-! ## Failure is terminal -/

/-- C2: every completion handler called with an error code, and `on_connect`
when the server name is rejected, writes exactly one failure report
`label: message` to the error channel and starts no operation; a resolution
error gives one "resolve" report and no connect, a connect error one "connect"
report and no TLS handshake, a TLS handshake error one "ssl_handshake" report
and no upgrade handshake, and no further callback can run afterwards. -/
theorem failure_is_terminal (env : Env)
    (s : session) (ec : error_code) (hec : ec.failed = true)
    (results : List endpoint) (ep : endpoint) (n : Nat)
    (t : session) (ec0 : error_code) (h0 : ec0.failed = false)
    (ht : env.SSL_set_tlsext_host_name t.host_ = false)
    (host port : String) (ok1 ok2 bad : Outcome)
    (hok1 : ok1.ec.failed = false) (hok2 : ok2.ec.failed = false) (hbad : bad.ec.failed = true)
    (hsni : env.SSL_set_tlsext_host_name host = true) :
    ((on_resolve env ec results s).stderr = s.stderr ++ ["resolve: " ++ env.message ec] ∧
      (on_resolve env ec results s).issued = s.issued ∧
      (on_resolve env ec results s).pending = s.pending) ∧
    ((on_connect env ec ep s).stderr = s.stderr ++ ["connect: " ++ env.message ec] ∧
      (on_connect env ec ep s).issued = s.issued ∧
      (on_connect env ec ep s).pending = s.pending) ∧
    ((on_connect env ec0 ep t).stderr = t.stderr ++ ["connect: " ++ env.message
          { value := static_cast_int env.ERR_get_error, category := get_ssl_category }] ∧
      (on_connect env ec0 ep t).issued = t.issued ∧
      (on_connect env ec0 ep t).pending = t.pending) ∧
    ((on_ssl_handshake env ec s).stderr = s.stderr ++ ["ssl_handshake: " ++ env.message ec] ∧
      (on_ssl_handshake env ec s).issued = s.issued ∧
      (on_ssl_handshake env ec s).pending = s.pending) ∧
    ((on_handshake env ec s).stderr = s.stderr ++ ["handshake: " ++ env.message ec] ∧
      (on_handshake env ec s).issued = s.issued ∧
      (on_handshake env ec s).pending = s.pending) ∧
    ((on_read env ec n s).stderr = s.stderr ++ ["read: " ++ env.message ec] ∧
      (on_read env ec n s).issued = s.issued ∧
      (on_read env ec n s).pending = s.pending) ∧
    (∃ r, started env host port [(0, bad)] = some r ∧
      r.stderr = ["resolve: " ++ env.message bad.ec] ∧
      r.issued = [Op.async_resolve host port] ∧
      r.pending = [] ∧ ∀ i o, complete env i o r = none) ∧
    (∃ r, started env host port [(0, ok1), (0, bad)] = some r ∧
      r.stderr = ["connect: " ++ env.message bad.ec] ∧
      r.issued = [Op.async_resolve host port, Op.async_connect ok1.results] ∧
      r.pending = [] ∧ ∀ i o, complete env i o r = none) ∧
    (∃ r, started env host port [(0, ok1), (0, ok2), (0, bad)] = some r ∧
      r.stderr = ["ssl_handshake: " ++ env.message bad.ec] ∧
      r.issued = [Op.async_resolve host port, Op.async_connect ok1.results,
        Op.ssl_async_handshake handshake_type.client] ∧
      r.pending = [] ∧ ∀ i o, complete env i o r = none) := by
  refine ⟨?_, ?_, ?_, ?_, ?_, ?_, ?_, ?_, ?_⟩
  · simp [on_resolve_failed _ _ _ _ hec, fail, session.stderr, session.issued,
      Effect.cerr_line, Effect.issued_op]
  · simp [on_connect_failed _ _ _ _ hec, fail, session.stderr, session.issued,
      Effect.cerr_line, Effect.issued_op]
  · simp [on_connect_sni_rejected _ _ _ _ h0 ht, fail, session.stderr, session.issued,
      Effect.cerr_line, Effect.issued_op]
  · simp [on_ssl_handshake_failed _ _ _ hec, fail, session.stderr, session.issued,
      Effect.cerr_line, Effect.issued_op]
  · simp [on_handshake_failed _ _ _ hec, fail, session.stderr, session.issued,
      Effect.cerr_line, Effect.issued_op]
  · simp [on_read_failed _ _ _ _ hec, session.stderr, session.issued,
      Effect.cerr_line, Effect.issued_op]
  · obtain ⟨r, h1, h2, h3, h4⟩ : ∃ r, started env host port [(0, bad)] = some r ∧
        r.stderr = ["resolve: " ++ env.message bad.ec] ∧
        r.issued = [Op.async_resolve host port] ∧ r.pending = [] := by
      refine ⟨_, rfl, ?_, ?_, ?_⟩ <;>
        simp [invoke, on_resolve, hbad, fail, run, issue, session.init, session.stderr,
          session.issued, Effect.cerr_line, Effect.issued_op]
    exact ⟨r, h1, h2, h3, h4, fun i o => complete_nothing_pending env i o r h4⟩
  · obtain ⟨r, h1, h2, h3, h4⟩ : ∃ r, started env host port [(0, ok1), (0, bad)] = some r ∧
        r.stderr = ["connect: " ++ env.message bad.ec] ∧
        r.issued = [Op.async_resolve host port, Op.async_connect ok1.results] ∧
        r.pending = [] := by
      simp [started, callbacks, complete, invoke, on_resolve, on_connect, hok1, hbad, fail, run,
        issue, expires_after, session.init, session.stderr, session.issued, Effect.cerr_line,
        Effect.issued_op]
    exact ⟨r, h1, h2, h3, h4, fun i o => complete_nothing_pending env i o r h4⟩
  · obtain ⟨r, h1, h2, h3, h4⟩ : ∃ r,
        started env host port [(0, ok1), (0, ok2), (0, bad)] = some r ∧
        r.stderr = ["ssl_handshake: " ++ env.message bad.ec] ∧
        r.issued = [Op.async_resolve host port, Op.async_connect ok1.results,
          Op.ssl_async_handshake handshake_type.client] ∧
        r.pending = [] := by
      simp [started, callbacks, complete, invoke, on_resolve, on_connect, on_ssl_handshake, hok1,
        hok2, hbad, hsni, fail, run, issue, expires_after, session.init, session.stderr,
        session.issued, Effect.cerr_line, Effect.issued_op]
    exact ⟨r, h1, h2, h3, h4, fun i o => complete_nothing_pending env i o r h4⟩

theorem failure_is_terminal_witness :
    (Outcome.error 2 0).ec.failed = true ∧
    (Outcome.ok 0).ec.failed = false ∧
    sample_env.SSL_set_tlsext_host_name session.init.host_ = false ∧
    sample_env.SSL_set_tlsext_host_name "nonexistent.invalid" = true ∧
    (on_resolve sample_env (Outcome.error 2 0).ec [] session.init).stderr = ["resolve: system:2"] ∧
    (on_connect sample_env (Outcome.ok 0).ec (Outcome.ok 0).ep session.init).stderr = ["connect: asio.ssl:1"] ∧
    (on_connect sample_env (Outcome.ok 0).ec (Outcome.ok 0).ep session.init).pending = [] ∧
    (∃ r, started sample_env "nonexistent.invalid" "443" [(0, Outcome.error 2 0)] = some r ∧
      r.stderr = ["resolve: system:2"] ∧
      r.issued = [Op.async_resolve "nonexistent.invalid" "443"] ∧
      r.pending = [] ∧ ∀ i o, complete sample_env i o r = none) :=
  have h := failure_is_terminal sample_env session.init (Outcome.error 2 0).ec rfl [] (Outcome.ok 0).ep 0
    session.init (Outcome.ok 0).ec rfl rfl "nonexistent.invalid" "443" (Outcome.ok 0) (Outcome.ok 0)
    (Outcome.error 2 0) rfl rfl rfl rfl
  ⟨rfl, rfl, rfl, rfl, h.1.1, h.2.2.1.1, h.2.2.1.2.2, h.2.2.2.2.2.2.1⟩

/-! ## Host string, server name and upgrade request -/

/-- C3: for a host string `h` passed to `run` and a connected endpoint with
port `p`, when the connect succeeds and the server name is accepted, the
server name set is exactly `h`, the retained host string becomes `h`, a colon
and the decimal `p`, and the upgrade handshake then started by
`on_ssl_handshake` has exactly that string as host and "/events" as target;
no handler other than `on_connect` changes the host string. -/
theorem host_string_and_upgrade_request (env : Env) (h port : String)
    (ok1 ok2 ok3 : Outcome)
    (h1 : ok1.ec.failed = false) (h2 : ok2.ec.failed = false) (h3 : ok3.ec.failed = false)
    (hsni : env.SSL_set_tlsext_host_name h = true)
    (s : session) (ec : error_code) (results : List endpoint) (n : Nat) :
    (∃ r2, started env h port [(0, ok1), (0, ok2)] = some r2 ∧
      r2.sni = some h ∧
      Effect.SSL_set_tlsext_host_name h true ∈ r2.trace ∧
      r2.host_ = h ++ ":" ++ toString ok2.ep.port ∧
      r2.pending = [Op.ssl_async_handshake handshake_type.client]) ∧
    (∃ r3, started env h port [(0, ok1), (0, ok2), (0, ok3)] = some r3 ∧
      r3.sni = some h ∧
      r3.host_ = h ++ ":" ++ toString ok2.ep.port ∧
      r3.pending = [Op.ws_async_handshake (h ++ ":" ++ toString ok2.ep.port) "/events"]) ∧
    ((run h port s).host_ = h ∧
      (on_resolve env ec results s).host_ = s.host_ ∧
      (on_ssl_handshake env ec s).host_ = s.host_ ∧
      (on_handshake env ec s).host_ = s.host_ ∧
      (on_read env ec n s).host_ = s.host_ ∧
      (on_write env ec n s).host_ = s.host_ ∧
      (on_close env ec s).host_ = s.host_) := by
  refine ⟨?_, ?_, rfl, ?_, ?_, ?_, ?_, ?_, ?_⟩
  · simp [started, callbacks, complete, invoke, on_resolve, on_connect, h1, h2, hsni, run,
      issue, expires_after, session.init, String.append_assoc]
  · simp [started, callbacks, complete, invoke, on_resolve, on_connect, on_ssl_handshake, h1, h2,
      h3, hsni, run, issue, expires_after, expires_never, session.init, String.append_assoc]
  · unfold on_resolve
    split <;> rfl
  · unfold on_ssl_handshake
    split <;> rfl
  · unfold on_handshake
    split <;> rfl
  · unfold on_read
    split <;> rfl
  · unfold on_write
    split <;> rfl
  · unfold on_close
    split <;> rfl

theorem host_string_and_upgrade_request_witness :
    (Outcome.ok 0).ec.failed = false ∧
    sample_env.SSL_set_tlsext_host_name "example.test" = true ∧
    (∃ r2, started sample_env "example.test" "443" [(0, Outcome.ok 0), (0, Outcome.ok 0)] = some r2 ∧
      r2.sni = some "example.test" ∧
      Effect.SSL_set_tlsext_host_name "example.test" true ∈ r2.trace ∧
      r2.host_ = "example.test:443" ∧
      r2.pending = [Op.ssl_async_handshake handshake_type.client]) ∧
    (∃ r3, started sample_env "example.test" "443"
        [(0, Outcome.ok 0), (0, Outcome.ok 0), (0, Outcome.ok 0)] = some r3 ∧
      r3.sni = some "example.test" ∧
      r3.host_ = "example.test:443" ∧
      r3.pending = [Op.ws_async_handshake "example.test:443" "/events"]) :=
  have h := host_string_and_upgrade_request sample_env "example.test" "443"
    (Outcome.ok 0) (Outcome.ok 0) (Outcome.ok 0) rfl rfl rfl rfl session.init (Outcome.ok 0).ec [] 0
  ⟨rfl, rfl, h.1, h.2.1⟩

/-! ## Deadline policy -/

theorem stage_at_handshake_le (k n : Nat) (hk : k ≤ n) (h : stage_at k = Stage.handshake) :
    deadline_for (stage_at n) = Deadline.never := by
  match k, n with
  | 3, 3 => rfl
  | 3, _ + 4 => rfl
  | 0, _ => simp [stage_at] at h
  | 1, _ => simp [stage_at] at h
  | 2, _ => simp [stage_at] at h
  | _ + 4, _ => simp [stage_at] at h
  | 3, 0 => omega
  | 3, 1 => omega
  | 3, 2 => omega

/-- C4: a successful resolution sets the deadline to 30 and then starts the
connect; a successful connect sets it to 30 again and then starts the TLS
handshake; a successful TLS handshake sets it to never-expires and then starts
the upgrade handshake; `on_handshake` and `on_read` leave it alone, and in
every state reached from one `run` in which the upgrade handshake has been
started the deadline is never-expires. -/
theorem deadline_policy (env : Env) (s : session) (ec : error_code) (hec : ec.failed = false)
    (hs : env.SSL_set_tlsext_host_name s.host_ = true)
    (results : List endpoint) (ep : endpoint)
    (t : session) (ec1 : error_code) (n : Nat)
    (host port : String) (script : List (Nat × Outcome)) (r : session)
    (hr : started env host port script = some r)
    (hup : ∃ op ∈ r.issued, op.stage = Stage.handshake) :
    ((on_resolve env ec results s).trace = s.trace ++
        [Effect.expires_after 30, Effect.issue (Op.async_connect results)] ∧
      (on_resolve env ec results s).deadline = Deadline.after 30) ∧
    ((on_connect env ec ep s).trace = s.trace ++
        [Effect.expires_after 30, Effect.SSL_set_tlsext_host_name s.host_ true,
          Effect.issue (Op.ssl_async_handshake handshake_type.client)] ∧
      (on_connect env ec ep s).deadline = Deadline.after 30) ∧
    ((on_ssl_handshake env ec s).trace = s.trace ++
        [Effect.expires_never, Effect.set_option_timeout_suggested handshake_type.client,
          Effect.set_option_decorator
            (env.BOOST_BEAST_VERSION_STRING ++ " websocket-client-async-ssl C++ forever <3"),
          Effect.issue (Op.ws_async_handshake s.host_ "/events")] ∧
      (on_ssl_handshake env ec s).deadline = Deadline.never) ∧
    ((on_handshake env ec1 t).deadline = t.deadline ∧
      (on_read env ec1 n t).deadline = t.deadline) ∧
    r.deadline = Deadline.never := by
  refine ⟨?_, ?_, ?_, ⟨?_, ?_⟩, ?_⟩
  · simp [on_resolve_ok _ _ _ _ hec]
  · simp [on_connect_ok _ _ _ _ hec hs]
  · simp [on_ssl_handshake_ok _ _ _ hec]
  · unfold on_handshake
    split <;> rfl
  · unfold on_read
    split <;> rfl
  · obtain ⟨m, hm, hd, -⟩ := Inv_started env host port script r hr
    obtain ⟨op, hop, hst⟩ := hup
    have hmem : Stage.handshake ∈ r.issued.map Op.stage :=
      List.mem_map.mpr ⟨op, hop, hst⟩
    rw [hm, List.mem_map] at hmem
    obtain ⟨k, hk, hk2⟩ := hmem
    rw [hd]
    exact stage_at_handshake_le k m (by have := List.mem_range.mp hk; omega) hk2

theorem deadline_policy_witness :
    (Outcome.ok 0).ec.failed = false ∧
    sample_env.SSL_set_tlsext_host_name (run "example.test" "443" session.init).host_ = true ∧
    started sample_env "example.test" "443" sample_script = some sample_state ∧
    (∃ op ∈ sample_state.issued, op.stage = Stage.handshake) ∧
    (on_resolve sample_env (Outcome.ok 0).ec [] (run "example.test" "443" session.init)).deadline
      = Deadline.after 30 ∧
    (on_connect sample_env (Outcome.ok 0).ec (Outcome.ok 0).ep
      (run "example.test" "443" session.init)).deadline = Deadline.after 30 ∧
    (on_ssl_handshake sample_env (Outcome.ok 0).ec
      (run "example.test" "443" session.init)).deadline = Deadline.never ∧
    sample_state.deadline = Deadline.never :=
  have hup : ∃ op ∈ sample_state.issued, op.stage = Stage.handshake :=
    ⟨Op.ws_async_handshake "example.test:443" "/events", by decide, rfl⟩
  have h := deadline_policy sample_env (run "example.test" "443" session.init) (Outcome.ok 0).ec rfl
    rfl [] (Outcome.ok 0).ep session.init (Outcome.error 2 0).ec 0 "example.test" "443"
    sample_script sample_state rfl hup
  ⟨rfl, rfl, rfl, hup, h.1.2, h.2.1.2, h.2.2.1.2, h.2.2.2.2⟩

/-- C5, as amended: in every state reached from one `run`, a connect or TLS
handshake in flight has the 30-unit deadline armed for it, whereas no deadline
has been armed while the resolve is in flight. -/
theorem connect_and_tls_have_deadline (env : Env) (host port : String)
    (script : List (Nat × Outcome)) (r : session)
    (hr : started env host port script = some r) :
    ∀ op ∈ r.pending,
      ((op.stage = Stage.connect ∨ op.stage = Stage.ssl_handshake) →
        r.deadline = Deadline.after 30) ∧
      (op.stage = Stage.resolve → r.deadline = Deadline.unarmed) := by
  obtain ⟨n, -, hd, -, hp, -⟩ := Inv_started env host port script r hr
  intro op hop
  rcases hp with hp | ⟨op1, hp, hst⟩
  · simp [hp] at hop
  · rw [hp, List.mem_singleton] at hop
    subst hop
    rw [hd, ← hst]
    constructor
    · rintro (h | h) <;> rw [h] <;> rfl
    · intro h
      rw [h]
      rfl

theorem connect_and_tls_have_deadline_witness :
    started sample_env "example.test" "443" [(0, Outcome.ok 0)] = some sample_connecting ∧
    sample_connecting.pending = [Op.async_connect [{ address := "192.0.2.1", port := 443 }]] ∧
    sample_connecting.deadline = Deadline.after 30 :=
  ⟨rfl, rfl,
    (connect_and_tls_have_deadline sample_env "example.test" "443" [(0, Outcome.ok 0)]
      sample_connecting rfl (Op.async_connect [{ address := "192.0.2.1", port := 443 }])
      (by decide)).1 (Or.inl rfl)⟩

/-- C5 fails while the resolve is in flight: right after `run`, the resolve
started for "example.test" is in flight and no deadline has been armed, so the
deadline is not the 30-unit one. -/
theorem resolve_in_flight_without_deadline :
    started sample_env "example.test" "443" [] = some (run "example.test" "443" session.init) ∧
    (run "example.test" "443" session.init).pending = [Op.async_resolve "example.test" "443"] ∧
    (Op.async_resolve "example.test" "443").stage = Stage.resolve ∧
    (run "example.test" "443" session.init).deadline = Deadline.unarmed ∧
    ¬ (run "example.test" "443" session.init).deadline = Deadline.after 30 := by
  decide

/-! ## One operation at a time -/

theorem stage_order_full (n : Nat) :
    [Stage.resolve, Stage.connect, Stage.ssl_handshake, Stage.handshake] ++
        List.replicate n Stage.read = (List.range (n + 4)).map stage_at := by
  induction n with
  | zero => simp [List.range_succ, stage_at]
  | succ m ih =>
    rw [List.replicate_succ', ← List.append_assoc, ih, List.range_succ (m + 4), List.map_append]
    rfl

theorem stage_order (n : Nat) :
    (List.range n).map stage_at <+:
      [Stage.resolve, Stage.connect, Stage.ssl_handshake, Stage.handshake] ++
        List.replicate n Stage.read := by
  rw [stage_order_full]
  have h : List.range n = (List.range (n + 4)).take n := by
    rw [List.take_range]
    simp
  rw [h, List.map_take]
  exact List.take_prefix _ _

/-- C6: in every state reached from a fresh session by one `run` and any
sequence of completion callbacks, each for an operation in flight and with any
outcome, at most one operation is in flight; the operations started are the
completed ones followed by the one in flight, in the order resolve, connect,
TLS handshake, upgrade handshake, read, read, ..., beginning with the resolve
of `run`; and a callback consumes the operation in flight and starts at most
one new one. -/
theorem at_most_one_operation_in_flight (env : Env) (host port : String)
    (script : List (Nat × Outcome)) (r : session)
    (hr : started env host port script = some r) :
    r.pending.length ≤ 1 ∧
    r.issued = r.completed.map Prod.fst ++ r.pending ∧
    r.issued.head? = some (Op.async_resolve host port) ∧
    (∃ k, r.issued.map Op.stage <+:
      [Stage.resolve, Stage.connect, Stage.ssl_handshake, Stage.handshake] ++
        List.replicate k Stage.read) ∧
    (∀ i o r1, complete env i o r = some r1 →
      i = 0 ∧ ∃ op, r.pending = [op] ∧ r1.completed = r.completed ++ [(op, o)] ∧
        ((r1.pending = [] ∧ r1.issued = r.issued) ∨
          (∃ op1, r1.pending = [op1] ∧ r1.issued = r.issued ++ [op1] ∧
            o.ec.failed = false))) := by
  obtain ⟨n, h1, h2, h3, h4, -, -, h7⟩ := Inv_started env host port script r hr
  refine ⟨?_, h3, h7, ⟨n + 1, by rw [h1]; exact stage_order (n + 1)⟩, ?_⟩
  · rcases h4 with hp | ⟨op, hp, -⟩ <;> simp [hp]
  · intro i o r1 hc
    rcases h4 with hp | ⟨op, hp, hst⟩
    · rw [complete_nothing_pending env i o r hp] at hc
      exact absurd hc (by simp)
    · obtain ⟨hi, rfl⟩ := complete_single env i o r r1 op hp hc
      obtain ⟨hcm, hcase⟩ := invoke_spec env op o
        { r with pending := [], completed := r.completed ++ [(op, o)] } rfl
        (by simpa [hst] using h2)
      refine ⟨hi, op, hp, hcm, ?_⟩
      rcases hcase with ⟨hp1, hi1, -⟩ | ⟨op1, hp1, hi1, -, -, hf1⟩
      · exact Or.inl ⟨hp1, hi1⟩
      · exact Or.inr ⟨op1, hp1, hi1, hf1⟩

theorem at_most_one_operation_in_flight_witness :
    started sample_env "example.test" "443" (sample_script.take 5) = some sample_streaming ∧
    sample_streaming.pending = [Op.async_read Buffer.buffer_] ∧
    sample_streaming.pending.length ≤ 1 ∧
    sample_streaming.issued.map Op.stage =
      [Stage.resolve, Stage.connect, Stage.ssl_handshake, Stage.handshake, Stage.read, Stage.read] ∧
    sample_streaming.issued.head? = some (Op.async_resolve "example.test" "443") :=
  have h := at_most_one_operation_in_flight sample_env "example.test" "443" (sample_script.take 5)
    sample_streaming rfl
  ⟨rfl, rfl, h.1, by decide, h.2.2.1⟩

/-! ## Starting twice -/

/-- C7, as amended: `run` has no guard against re-entry; on any session,
started or not, it overwrites the retained host string with its host
argument and starts one more resolve for its arguments, leaving the
operations already in flight in place and writing no report. -/
theorem run_is_not_guarded (host port : String) (s : session) :
    (run host port s).host_ = host ∧
    (run host port s).pending = s.pending ++ [Op.async_resolve host port] ∧
    (run host port s).issued = s.issued ++ [Op.async_resolve host port] ∧
    (run host port s).stdout = s.stdout ∧
    (run host port s).stderr = s.stderr := by
  simp [run, issue, session.issued, session.stdout, session.stderr, Effect.issued_op,
    Effect.cout_line, Effect.cerr_line]

/-- C7 fails: a second `run` on the session started for "example.test" starts
an additional resolve, so that two are in flight, and replaces the retained
host string. -/
theorem second_run_starts_second_resolve :
    (run "example.test" "443" session.init).host_ = "example.test" ∧
    (run "example.test" "443" session.init).pending = [Op.async_resolve "example.test" "443"] ∧
    (run "other.test" "80" (run "example.test" "443" session.init)).host_ = "other.test" ∧
    (run "other.test" "80" (run "example.test" "443" session.init)).pending =
      [Op.async_resolve "example.test" "443", Op.async_resolve "other.test" "80"] ∧
    (run "other.test" "80" (run "example.test" "443" session.init)).stderr = [] ∧
    ¬ ((run "other.test" "80" (run "example.test" "443" session.init)).issued =
          (run "example.test" "443" session.init).issued ∧
        (run "other.test" "80" (run "example.test" "443" session.init)).host_ =
          (run "example.test" "443" session.init).host_) := by
  decide

/-! ## Labels of the failure reports -/

/-- C8, as amended: the failure reports for a resolution error, a connect
error, a TLS handshake error, an upgrade handshake error and a read error
carry the labels "resolve", "connect", "ssl_handshake", "handshake" and "read",
which are pairwise distinct; a rejected server name is reported under the
label "connect", the label of a connect error. -/
theorem failure_labels (env : Env) (s : session) (ec : error_code) (hec : ec.failed = true)
    (results : List endpoint) (ep : endpoint) (n : Nat)
    (t : session) (ec0 : error_code) (h0 : ec0.failed = false)
    (ht : env.SSL_set_tlsext_host_name t.host_ = false) :
    (on_resolve env ec results s).labels = s.labels ++ ["resolve"] ∧
    (on_connect env ec ep s).labels = s.labels ++ ["connect"] ∧
    (on_ssl_handshake env ec s).labels = s.labels ++ ["ssl_handshake"] ∧
    (on_handshake env ec s).labels = s.labels ++ ["handshake"] ∧
    (on_read env ec n s).labels = s.labels ++ ["read"] ∧
    (on_connect env ec0 ep t).labels = t.labels ++ ["connect"] ∧
    ["resolve", "connect", "ssl_handshake", "handshake", "read"].Nodup := by
  refine ⟨?_, ?_, ?_, ?_, ?_, ?_, by decide⟩
  · simp [on_resolve_failed _ _ _ _ hec, fail, session.labels, Effect.fail_label]
  · simp [on_connect_failed _ _ _ _ hec, fail, session.labels, Effect.fail_label]
  · simp [on_ssl_handshake_failed _ _ _ hec, fail, session.labels, Effect.fail_label]
  · simp [on_handshake_failed _ _ _ hec, fail, session.labels, Effect.fail_label]
  · simp [on_read_failed _ _ _ _ hec, session.labels, Effect.fail_label]
  · simp [on_connect_sni_rejected _ _ _ _ h0 ht, fail, session.labels, Effect.fail_label]

theorem failure_labels_witness :
    (Outcome.error 111 0).ec.failed = true ∧
    (Outcome.ok 0).ec.failed = false ∧
    sample_env.SSL_set_tlsext_host_name session.init.host_ = false ∧
    (on_resolve sample_env (Outcome.error 111 0).ec [] session.init).labels = ["resolve"] ∧
    (on_connect sample_env (Outcome.error 111 0).ec (Outcome.ok 0).ep session.init).labels
      = ["connect"] ∧
    (on_ssl_handshake sample_env (Outcome.error 111 0).ec session.init).labels
      = ["ssl_handshake"] ∧
    (on_handshake sample_env (Outcome.error 111 0).ec session.init).labels = ["handshake"] ∧
    (on_read sample_env (Outcome.error 111 0).ec 0 session.init).labels = ["read"] ∧
    (on_connect sample_env (Outcome.ok 0).ec (Outcome.ok 0).ep session.init).labels
      = ["connect"] :=
  have h := failure_labels sample_env session.init (Outcome.error 111 0).ec rfl []
    (Outcome.ok 0).ep 0 session.init (Outcome.ok 0).ec rfl rfl
  ⟨rfl, rfl, rfl, h.1, h.2.1, h.2.2.1, h.2.2.2.1, h.2.2.2.2.1, h.2.2.2.2.2.1⟩

/-- C8 fails: a session whose connect ends with an error and a session whose
connect succeeds but whose server name is rejected both end with exactly one
failure report, and both reports carry the label "connect"; only the cause
message differs. -/
theorem sni_failure_shares_connect_label :
    (started sample_env "example.test" "443"
        [(0, Outcome.ok 0), (0, Outcome.error 111 0)]).map session.labels = some ["connect"] ∧
    (started rejecting_env "example.test" "443"
        [(0, Outcome.ok 0), (0, Outcome.ok 0)]).map session.labels = some ["connect"] ∧
    (started sample_env "example.test" "443"
        [(0, Outcome.ok 0), (0, Outcome.error 111 0)]).map session.stderr
      = some ["connect: system:111"] ∧
    (started rejecting_env "example.test" "443"
        [(0, Outcome.ok 0), (0, Outcome.ok 0)]).map session.stderr
      = some ["connect: asio.ssl:1"] ∧
    ¬ (started rejecting_env "example.test" "443"
          [(0, Outcome.ok 0), (0, Outcome.ok 0)]).map session.labels ≠
        (started sample_env "example.test" "443"
          [(0, Outcome.ok 0), (0, Outcome.error 111 0)]).map session.labels := by
  decide

/-! ## The event loop and `main` -/

theorem ioc_run_nothing_pending (env : Env) (script : List Outcome) (s : session)
    (hp : s.pending = []) : ioc_run env script s = some s := by
  cases script with
  | nil => simp [ioc_run, hp]
  | cons o rest => simp [ioc_run, complete_nothing_pending env 0 o s hp]

theorem ioc_run_callbacks (env : Env) (script : List Outcome) :
    ∀ s r : session, ioc_run env script s = some r →
      r.pending = [] ∧ ∃ cs, callbacks env cs s = some r := by
  induction script with
  | nil =>
    intro s r h
    unfold ioc_run at h
    split at h
    · rename_i he
      simp only [Option.some.injEq] at h
      subst h
      exact ⟨by simpa using he, [], rfl⟩
    · exact absurd h (by simp)
  | cons o rest ih =>
    intro s r h
    unfold ioc_run at h
    split at h
    · rename_i hc
      simp only [Option.some.injEq] at h
      subst h
      refine ⟨?_, [], rfl⟩
      unfold complete at hc
      split at hc
      · rename_i hg
        cases hl : s.pending with
        | nil => rfl
        | cons a l => simp [hl] at hg
      · exact absurd hc (by simp)
    · rename_i s1 hc
      obtain ⟨hp, cs, hcs⟩ := ih s1 r h
      exact ⟨hp, (0, o) :: cs, by simp [callbacks, hc, hcs]⟩

theorem ioc_run_returns (env : Env) (first : Op) (script : List Outcome) :
    ∀ s : session, Inv first s → (∃ o ∈ script, o.ec.failed = true) →
      ∃ r, ioc_run env script s = some r := by
  induction script with
  | nil =>
    intro s _ h
    obtain ⟨o, ho, -⟩ := h
    simp at ho
  | cons o rest ih =>
    intro s hinv h
    unfold ioc_run
    cases hc : complete env 0 o s with
    | none => exact ⟨s, rfl⟩
    | some s1 =>
      simp only []
      have hinv1 := Inv_complete env first 0 o s s1 hinv hc
      cases hf : o.ec.failed with
      | true =>
        have hp : s1.pending = [] := by
          by_contra hne
          obtain ⟨_, -, -, -, -, h5, -⟩ := hinv1
          obtain ⟨_, -, -, -, h4s, -⟩ := hinv
          rcases h4s with hps | ⟨op, hps, -⟩
          · rw [complete_nothing_pending env 0 o s hps] at hc
            exact absurd hc (by simp)
          · obtain ⟨-, hs1⟩ := complete_single env 0 o s s1 op hps hc
            have hcm := (invoke_stdout env op o
              { s with pending := [], completed := s.completed ++ [(op, o)] }).2
            rw [← hs1] at hcm
            have hmem := h5 hne (op, o) (by simp [hcm])
            simp [hf] at hmem
        exact ⟨s1, ioc_run_nothing_pending env rest s1 hp⟩
      | false =>
        obtain ⟨o1, ho1, hf1⟩ := h
        rcases List.mem_cons.mp ho1 with heq | hmem
        · rw [heq, hf] at hf1
          exact absurd hf1 (by simp)
        · exact ih s1 hinv1 ⟨o1, hmem, hf1⟩

theorem one_resolve (n : Nat) : ((List.range (n + 1)).map stage_at).count Stage.resolve = 1 := by
  have h : ((List.range n).map (stage_at ∘ Nat.succ)).count Stage.resolve = 0 := by
    rw [List.count_eq_zero, List.mem_map]
    rintro ⟨k, -, hk⟩
    match k with
    | 0 => simp [stage_at] at hk
    | 1 => simp [stage_at] at hk
    | 2 => simp [stage_at] at hk
    | _ + 3 => simp [stage_at] at hk
  rw [List.range_succ_eq_map, List.map_cons, List.map_map,
    show stage_at 0 = Stage.resolve from rfl, List.count_cons_self, h]

/-- C9: when the trust-store set-up throws, `main` writes "Error: <message>",
launches no session and returns the non-zero `EXIT_FAILURE`; otherwise it
launches exactly one session, by `run` with host "ws.backpack.tf" and port
"443", runs the event loop, and whenever the loop returns, in particular
whenever some operation ends with an error, it returns 0. -/
theorem main_exit_code (envT : Env) (e : String) (hT : trust_store_init envT = some e)
    (env : Env) (hN : trust_store_init env = none)
    (script failing : List Outcome) (hfail : ∃ o ∈ failing, o.ec.failed = true) :
    (main envT script =
        some { exit_code := EXIT_FAILURE, cerr := ["Error: " ++ e], launched := none } ∧
      EXIT_FAILURE ≠ 0) ∧
    main env script =
      (ioc_run env script (run "ws.backpack.tf" "443" session.init)).map
        (fun s => { exit_code := 0, cerr := [], launched := some s }) ∧
    (∀ p, main env script = some p →
      p.exit_code = 0 ∧ p.cerr = [] ∧
      ∃ s, p.launched = some s ∧ s.pending = [] ∧
        s.issued.head? = some (Op.async_resolve "ws.backpack.tf" "443") ∧
        (s.issued.map Op.stage).count Stage.resolve = 1) ∧
    (∃ s, main env failing = some { exit_code := 0, cerr := [], launched := some s }) := by
  have hmain : ∀ sc, main env sc =
      (ioc_run env sc (run "ws.backpack.tf" "443" session.init)).map
        (fun s => { exit_code := 0, cerr := [], launched := some s }) := by
    intro sc
    simp only [main, hN, EXIT_SUCCESS]
    cases ioc_run env sc (run "ws.backpack.tf" "443" session.init) <;> rfl
  refine ⟨⟨by simp [main, hT], by decide⟩, hmain script, ?_, ?_⟩
  · intro p hp
    rw [hmain script] at hp
    cases hr : ioc_run env script (run "ws.backpack.tf" "443" session.init) with
    | none => simp [hr] at hp
    | some r =>
      simp only [hr, Option.map_some', Option.some.injEq] at hp
      subst hp
      obtain ⟨hpend, cs, hcs⟩ := ioc_run_callbacks env script _ r hr
      obtain ⟨n, h1, -, -, -, -, -, h7⟩ := Inv_started env "ws.backpack.tf" "443" cs r hcs
      exact ⟨rfl, rfl, r, rfl, hpend, h7, by rw [h1]; exact one_resolve n⟩
  · obtain ⟨r, hr⟩ := ioc_run_returns env _ failing _ (Inv_run "ws.backpack.tf" "443") hfail
    exact ⟨r, by rw [hmain failing, hr]; rfl⟩

theorem main_exit_code_witness :
    trust_store_init throwing_env = some "set_default_verify_paths: no such file" ∧
    trust_store_init sample_env = none ∧
    (∃ o ∈ [Outcome.ok 0, Outcome.error 111 0], o.ec.failed = true) ∧
    main throwing_env [] = some
      { exit_code := 1, cerr := ["Error: set_default_verify_paths: no such file"], launched := none } ∧
    (∃ s, main sample_env [Outcome.ok 0, Outcome.error 111 0]
      = some { exit_code := 0, cerr := [], launched := some s }) :=
  have hfail : ∃ o ∈ [Outcome.ok 0, Outcome.error 111 0], o.ec.failed = true :=
    ⟨Outcome.error 111 0, by decide, rfl⟩
  have h := main_exit_code throwing_env "set_default_verify_paths: no such file" rfl
    sample_env rfl [] [Outcome.ok 0, Outcome.error 111 0] hfail
  ⟨rfl, rfl, hfail, h.1.1, h.2.2.2⟩

/-! ## Failed reads -/

/-- C10: a read completion with an error makes `on_read` first write the line
"<n> bytes recieved" to standard output, then write exactly one failure report
labelled "read", and start no further read; hence in every state reached from
one `run`, standard output holds exactly one report per read completion, and
the read completions are the successful ones plus at most one failed one. -/
theorem on_read_error_reports_count_then_fails (env : Env)
    (s : session) (ec : error_code) (n : Nat) (hec : ec.failed = true)
    (host port : String) (script : List (Nat × Outcome)) (r : session)
    (hr : started env host port script = some r) :
    ((on_read env ec n s).trace = s.trace ++
        [Effect.cout (toString n ++ " bytes recieved"), Effect.fail "read" (env.message ec)] ∧
      (on_read env ec n s).stdout = s.stdout ++ [toString n ++ " bytes recieved"] ∧
      (on_read env ec n s).stderr = s.stderr ++ ["read: " ++ env.message ec] ∧
      (on_read env ec n s).labels = s.labels ++ ["read"] ∧
      (on_read env ec n s).issued = s.issued ∧
      (on_read env ec n s).pending = s.pending) ∧
    (r.stdout = (r.completed.filter is_read).map
        (fun p => toString p.2.bytes_transferred ++ " bytes recieved") ∧
      r.stdout.length = r.completed.countP is_read ∧
      r.completed.countP is_read =
        r.completed.countP (fun p => is_read p && !p.2.ec.failed) +
          r.completed.countP (fun p => is_read p && p.2.ec.failed) ∧
      r.completed.countP (fun p => is_read p && p.2.ec.failed) ≤ 1) := by
  constructor
  · simp [on_read_failed _ _ _ _ hec, session.stdout, session.stderr, session.issued,
      session.labels, Effect.cout_line, Effect.cerr_line, Effect.issued_op, Effect.fail_label]
  · have hrep : Reported r := Reported_started env host port script r hr
    obtain ⟨k, -, -, -, -, -, h6, -⟩ := Inv_started env host port script r hr
    refine ⟨hrep, ?_, countP_split is_read (fun p => p.2.ec.failed) r.completed, ?_⟩
    · rw [hrep, List.length_map, List.countP_eq_length_filter]
    · refine le_trans ?_ h6
      rw [← List.countP_eq_length_filter]
      apply List.countP_mono_left
      intro p _ hp
      simp only [Bool.and_eq_true] at hp
      exact hp.2

theorem on_read_error_reports_count_then_fails_witness :
    (Outcome.error 2 0).ec.failed = true ∧
    started sample_env "example.test" "443" sample_script = some sample_state ∧
    (on_read sample_env (Outcome.error 2 0).ec 0 session.init).stdout = ["0 bytes recieved"] ∧
    (on_read sample_env (Outcome.error 2 0).ec 0 session.init).stderr = ["read: system:2"] ∧
    (on_read sample_env (Outcome.error 2 0).ec 0 session.init).pending = [] ∧
    sample_state.stdout = ["128 bytes recieved", "0 bytes recieved"] ∧
    sample_state.completed.countP is_read = 2 ∧
    sample_state.completed.countP (fun p => is_read p && p.2.ec.failed) ≤ 1 :=
  have h := on_read_error_reports_count_then_fails sample_env session.init (Outcome.error 2 0).ec 0
    rfl "example.test" "443" sample_script sample_state rfl
  ⟨rfl, rfl, h.1.2.1, h.1.2.2.1, h.1.2.2.2.2.2, h.2.1, h.2.2.1.symm, h.2.2.2.2⟩

end BptfSocket
